import Mathlib

/-!
Shallow embedding of the core of `youtube_channel_analytics.py`
(class `YouTubeDataProcessor` and class `YouTubeAnalytics`).

Conventions used throughout:
* machine integers of the source are modeled as `Int`/`Nat`;
* floating point quantities (ratios, means, p-values) are modeled as exact
  rationals `ℚ`;
* the external statistical routines of `scipy.stats` are not part of the
  repository; where a claim only depends on how their *results* are consumed,
  the routine is a function parameter, and where a claim depends on their
  documented formula or degenerate behaviour, that documented behaviour is
  embedded and the doc-comment of the definition says so.
-/

/- ===================== DurationParser ===================== -/

/-- ASCII apostrophe character, used in one classifier keyword below. -/
def apos : String := String.singleton (Char.ofNat 39)

/-- Models Python `re.search(r'(\d+)X', s)` followed by `int(m.group(1))`, for a
unit-marker character `X`: scan left to right, keeping the value of the current
contiguous digit run; the first time the marker appears immediately after at
least one digit, return the value of that (maximal) digit run; if the marker
never appears in that position, return `none` (no match).  The accumulator is
reset on every non-digit character. -/
def reSearchNumAux (marker : Char) (cur : Option Nat) : List Char → Option Nat
  | [] => none
  | c :: cs =>
    if c.isDigit then reSearchNumAux marker (some ((cur.getD 0) * 10 + (c.toNat - 48))) cs
    else if c = marker then
      match cur with
      | some n => some n
      | none => reSearchNumAux marker none cs
    else reSearchNumAux marker none cs

/-- Value of the digit group captured by `re.search(r'(\d+)X', s)`. -/
def reSearchNum (marker : Char) (s : String) : Option Nat :=
  reSearchNumAux marker none s.data

/-- Source: `YouTubeDataProcessor.duration_to_seconds` (lines 186-209).
Searches the ISO-8601 style duration string for digit groups before `H`, `M`
and `S` and sums `hours*3600 + minutes*60 + seconds`; an absent component
contributes 0. -/
def duration_to_seconds (duration : String) : Nat :=
  let hours := reSearchNum 'H' duration
  let minutes := reSearchNum 'M' duration
  let seconds := reSearchNum 'S' duration
  (match hours with | some h => h * 3600 | none => 0)
    + (match minutes with | some m => m * 60 | none => 0)
    + (match seconds with | some s => s | none => 0)

/- ===================== CategoryClassifier ===================== -/

/-- Keyword list of the `'Tutorial'` entry of the `categories` dict in
`YouTubeDataProcessor.categorize_video_type` (lines 226-228). -/
def tutorial_keywords : List String :=
  ["tutorial", "how to", "guide", "learn", "beginner",
   "advanced", "intermediate", "basics", "step by step",
   "complete", "full course", "training"]

/-- Keyword list of the `'Career'` entry (lines 229-230). -/
def career_keywords : List String :=
  ["career", "job", "salary", "interview", "resume", "hiring",
   "work", "employment", "promotion", "cv", "recruiter"]

/-- Keyword list of the `'Project'` entry (lines 231-232). -/
def project_keywords : List String :=
  ["project", "portfolio", "bootcamp", "full project",
   "hands-on", "practical", "real world"]

/-- Keyword list of the `'Tools'` entry (lines 233-234). -/
def tools_keywords : List String :=
  ["excel", "sql", "python", "tableau", "power bi", "pandas",
   "mysql", "jupyter", "anaconda", "azure", "aws"]

/-- Keyword list of the `'Q&A/Livestream'` entry (lines 235-236). -/
def qa_keywords : List String :=
  ["q&a", "qa", "livestream", "ask me anything", "ama",
   "live", "questions", "answers"]

/-- Keyword list of the `'Advice'` entry (lines 237-238); the eighth keyword is
the source's `'shouldn\'t'`. -/
def advice_keywords : List String :=
  ["tips", "mistakes", "reasons", "best", "top", "avoid",
   "should", "shouldn" ++ apos ++ "t", "advice", "recommendation"]

/-- The ordered `categories` dict of `categorize_video_type` (lines 225-239);
Python dicts iterate in insertion order, so the association list keeps that
order. -/
def categories : List (String × List String) :=
  [("Tutorial", tutorial_keywords),
   ("Career", career_keywords),
   ("Project", project_keywords),
   ("Tools", tools_keywords),
   ("Q&A/Livestream", qa_keywords),
   ("Advice", advice_keywords)]

/-- The source's `title.lower()`, as a character list (the titles and keywords
of this program are ASCII, where `Char.toLower` agrees with `str.lower`). -/
def lowerTitle (title : String) : List Char := title.data.map Char.toLower

/-- Character-list prefix test (used to express substring containment). -/
def listPrefixOf : List Char → List Char → Bool
  | [], _ => true
  | _ :: _, [] => false
  | a :: as, b :: bs => a == b && listPrefixOf as bs

/-- Character-list substring test: `needle` occurs contiguously in the
haystack.  This is Python's `keyword in title_lower`. -/
def listInfixOf (needle : List Char) : List Char → Bool
  | [] => needle.isEmpty
  | b :: bs => listPrefixOf needle (b :: bs) || listInfixOf needle bs

/-- The source's `any(keyword in title_lower for keyword in keywords)`:
substring containment of some keyword in the (already lowercased) title. -/
def catMatches (kws : List String) (t : List Char) : Bool :=
  kws.any (fun k => listInfixOf k.data t)

/-- The `for category, keywords in categories.items()` loop (lines 242-244):
return the label of the first entry whose keyword set matches. -/
def firstMatch (t : List Char) : List (String × List String) → Option String
  | [] => none
  | p :: rest => if catMatches p.2 t then some p.1 else firstMatch t rest

/-- Source: `YouTubeDataProcessor.categorize_video_type` (lines 211-246):
first matching category in the fixed order, else `"Other"`. -/
def categorize_video_type (title : String) : String :=
  (firstMatch (lowerTitle title) categories).getD "Other"

/- ===================== Duration bucketing ===================== -/

/-- The five duration size classes of `duration_category` (lines 284-289),
named after the labels `'Very Short (<5min)'`, `'Short (5-15min)'`,
`'Medium (15-30min)'`, `'Long (30-60min)'`, `'Very Long (>60min)'`. -/
inductive DurationBucket where
  | veryShort
  | short
  | medium
  | long
  | veryLong
deriving DecidableEq, Repr

/-- Position of a bucket in the fixed ordering of the five classes. -/
def DurationBucket.idx : DurationBucket → Nat
  | .veryShort => 0
  | .short => 1
  | .medium => 2
  | .long => 3
  | .veryLong => 4

/-- Source lines 284-289: `pd.cut(df['duration_min'], bins=[0, 5, 15, 30, 60,
float('inf')], labels=[...])`.  `pd.cut` defaults to `right=True` and
`include_lowest=False`, so the bins are the left-open right-closed intervals
`(0,5], (5,15], (15,30], (30,60], (60,inf)`; a value covered by no bin (here
any `duration_min <= 0`) is mapped to `NaN`, modeled as `none`. -/
def durationCategory (x : ℚ) : Option DurationBucket :=
  if 0 < x ∧ x ≤ 5 then some .veryShort
  else if 5 < x ∧ x ≤ 15 then some .short
  else if 15 < x ∧ x ≤ 30 then some .medium
  else if 30 < x ∧ x ≤ 60 then some .long
  else if 60 < x then some .veryLong
  else none

/- ===================== FeatureDeriver ===================== -/

/-- Calendar date of the publish timestamp.  The source's `published` field is
an ISO-8601 string parsed by the external `pd.to_datetime`; the parse is
modeled as the already-extracted calendar date (the derived temporal features
`day_of_week`, `day_name`, `month`, `year`, `upload_quarter` depend only on
the date part). -/
structure Date where
  year : Nat
  month : Nat
  day : Nat
deriving DecidableEq, Repr

/-- Day of the week of a civil (proleptic Gregorian, CE) date, with pandas'
convention Monday = 0 ... Sunday = 6, computed by the standard days-from-civil
formula (era of 400 years = 146097 days).  Models `df['published'].dt.dayofweek`
for the CE dates this pipeline sees. -/
def dayOfWeekOf (dt : Date) : Nat :=
  let y := if dt.month ≤ 2 then dt.year - 1 else dt.year
  let era := y / 400
  let yoe := y % 400
  let mp := (dt.month + 9) % 12
  let doy := (153 * mp + 2) / 5 + dt.day - 1
  let doe := yoe * 365 + yoe / 4 - yoe / 100 + doy
  (era * 146097 + doe + 2) % 7

/-- Calendar quarter (1-4) of a month, used by `dt.to_period('Q')`. -/
def quarterOf (m : Nat) : Nat := (m + 2) / 3

/-- Models `df['published'].dt.to_period('Q').astype(str)` (line 274), e.g.
`"2023Q2"`. -/
def uploadQuarter (dt : Date) : String :=
  toString dt.year ++ "Q" ++ toString (quarterOf dt.month)

/-- Models `df['published'].dt.day_name()` (line 276). -/
def dayNameOf (w : Nat) : String :=
  ["Monday", "Tuesday", "Wednesday", "Thursday", "Friday", "Saturday",
   "Sunday"].getD w ""

/-- One raw video row as produced by `YouTubeDataExtractor.get_video_details`
(lines 158-168); `description` and `tags` are never read by the processing or
analysis code and are omitted. -/
structure RawRecord where
  video_id : String
  title : String
  views : Int
  likes : Int
  comments : Int
  duration : String
  published : Date
deriving DecidableEq, Repr

/-- One processed row: the raw columns plus every derived column added by
`YouTubeDataProcessor.process_dataframe` (lines 248-291). -/
structure AnalysisRecord where
  video_id : String
  title : String
  views : Int
  likes : Int
  comments : Int
  duration : String
  published : Date
  duration_sec : Nat
  duration_min : ℚ
  likes_per_view : ℚ
  comments_per_view : ℚ
  engagement_rate : ℚ
  upload_quarter : String
  day_of_week : Nat
  day_name : String
  month : Nat
  year : Nat
  category : String
  duration_category : Option DurationBucket
deriving DecidableEq, Repr

/-- The denominator `df['views'].replace(0, 1)` used by the three ratio
metrics (lines 266-268): a zero view count is replaced by 1, any other value
is kept. -/
def zeroGuard (views : Int) : ℚ :=
  if views = 0 then 1 else (views : ℚ)

/-- The per-row action of `YouTubeDataProcessor.process_dataframe` (lines
248-291).  Every column added there (`apply`, vectorized arithmetic, `dt`
accessors, `pd.cut`) is element-wise, so the whole transformation is this
function applied to each row. -/
def enrich (r : RawRecord) : AnalysisRecord :=
  let dsec := duration_to_seconds r.duration
  let dmin : ℚ := (dsec : ℚ) / 60
  let w := dayOfWeekOf r.published
  { video_id := r.video_id
    title := r.title
    views := r.views
    likes := r.likes
    comments := r.comments
    duration := r.duration
    published := r.published
    duration_sec := dsec
    duration_min := dmin
    likes_per_view := (r.likes : ℚ) / zeroGuard r.views
    comments_per_view := (r.comments : ℚ) / zeroGuard r.views
    engagement_rate := ((r.likes : ℚ) + (r.comments : ℚ)) / zeroGuard r.views
    upload_quarter := uploadQuarter r.published
    day_of_week := w
    day_name := dayNameOf w
    month := r.published.month
    year := r.published.year
    category := categorize_video_type r.title
    duration_category := durationCategory dmin }

/-- Source: `YouTubeDataProcessor.process_dataframe` on the whole table. -/
def process_dataframe (rs : List RawRecord) : List AnalysisRecord :=
  rs.map enrich

/- ===================== HypothesisTestSuite ===================== -/

/-- Arithmetic mean of an integer sample, as used by `numpy` `.mean()` on the
`views` arrays; exact rational in place of IEEE floating point. -/
def qmean (xs : List Int) : ℚ :=
  (xs.sum : ℚ) / (xs.length : ℚ)

/-- The rows of category `'Tutorial'` (line 508). -/
def tutorialRows (df : List AnalysisRecord) : List AnalysisRecord :=
  df.filter (fun r => r.category == "Tutorial")

/-- The rows of category `'Career'` (line 509). -/
def careerRows (df : List AnalysisRecord) : List AnalysisRecord :=
  df.filter (fun r => r.category == "Career")

/-- The printed conclusion branch of `test_tutorial_vs_career_hypothesis`
(lines 572-589). -/
inductive Conclusion where
  | supported
  | reverseSignificant
  | noSignificantDifference
deriving DecidableEq, Repr

/-- The result dict of `test_tutorial_vs_career_hypothesis` (lines 614-628),
restricted to the fields the claims refer to.  The omitted fields (medians,
standard deviations, Cohen's d, the raw t and U statistics, the effect-size
label) involve real square roots not representable in `ℚ` and are consulted by
no claim; `conclusion` records which of the three printed conclusion branches
was taken. -/
structure H3Result where
  tutorial_count : Nat
  career_count : Nat
  tutorial_mean_views : ℚ
  career_mean_views : ℚ
  t_pvalue : ℚ
  u_pvalue : ℚ
  conclusion : Conclusion
  hypothesis_supported : Bool
deriving DecidableEq, Repr

/-- The result dict built at lines 614-628 (reached only on the sufficient-
data path), together with the conclusion branch taken at lines 572-589: the
decision compares the Mann-Whitney p-value `uP` against `alpha = 0.05` (line
567) and then the two group means; `hypothesis_supported` is
`u_pvalue < alpha and tutorial_views.mean() > career_views.mean()`
(line 627). -/
def h3Payload (tP uP : List Int → List Int → ℚ)
    (df : List AnalysisRecord) : H3Result :=
  let tv := (tutorialRows df).map (fun r => r.views)
  let cv := (careerRows df).map (fun r => r.views)
  let mt := qmean tv
  let mc := qmean cv
  let up := uP tv cv
  { tutorial_count := (tutorialRows df).length
    career_count := (careerRows df).length
    tutorial_mean_views := mt
    career_mean_views := mc
    t_pvalue := tP tv cv
    u_pvalue := up
    conclusion :=
      if up < 1 / 20 then
        if mt > mc then Conclusion.supported else Conclusion.reverseSignificant
      else Conclusion.noSignificantDifference
    hypothesis_supported := decide (up < 1 / 20 ∧ mt > mc) }

/-- Source: `YouTubeAnalytics.test_tutorial_vs_career_hypothesis` (lines
494-630).  The external p-value computations are the function parameters
`tP` (for `scipy.stats.ttest_ind`, line 539) and `uP` (for
`scipy.stats.mannwhitneyu(..., alternative='two-sided')`, line 545).  Fewer
than 2 rows in either category returns `None` before any test is run (lines
512-516); otherwise the structured result is built. -/
def test_tutorial_vs_career (tP uP : List Int → List Int → ℚ)
    (df : List AnalysisRecord) : Option H3Result :=
  if (tutorialRows df).length < 2 ∨ (careerRows df).length < 2 then none
  else some (h3Payload tP uP df)

/-- The view-count groups by day of week (lines 453-456):
`[df[df['day_of_week'] == i]['views'].values for i in range(7)]`. -/
def dayGroups (df : List AnalysisRecord) : List (List Int) :=
  (List.range 7).map
    (fun i => (df.filter (fun r => r.day_of_week == i)).map (fun r => r.views))

/-- The result dict of `test_day_of_week_hypothesis` (line 492) together with
the significance decision taken at line 464.  `none` models `nan`. -/
structure DayOfWeekResult where
  f_statistic : Option ℚ
  p_value : Option ℚ
  supported : Bool
deriving DecidableEq, Repr

/-- Models `scipy.stats.f_oneway` (line 459).  When some input sample is
empty, `f_oneway` emits `stats.DegenerateDataWarning` (suppressed by the
source's global `warnings.filterwarnings('ignore')`, line 25) and returns
`(nan, nan)`, modeled as `(none, none)`; otherwise the F statistic and the
F-distribution p-value are the external computation `pfun`. -/
def f_oneway_model (pfun : List (List Int) → ℚ × ℚ) (gs : List (List Int)) :
    Option ℚ × Option ℚ :=
  if gs.any List.isEmpty then (none, none)
  else (some (pfun gs).1, some (pfun gs).2)

/-- Source: `YouTubeAnalytics.test_day_of_week_hypothesis` (lines 439-492).
The procedure groups views by day of week, runs the ANOVA, and branches only
on `p_value < 0.05` (line 464); a `nan` p-value makes that comparison `False`
in Python, so `supported` is `false` when the p-value is `none`.  There is no
emptiness check on the groups. -/
def test_day_of_week (pfun : List (List Int) → ℚ × ℚ)
    (df : List AnalysisRecord) : DayOfWeekResult :=
  let gs := dayGroups df
  let fp := f_oneway_model pfun gs
  { f_statistic := fp.1
    p_value := fp.2
    supported := match fp.2 with
      | some q => decide (q < 1 / 20)
      | none => false }

/- ===================== Parametric test statistic ===================== -/

/-- Sum of squared deviations from the mean of a sample. -/
def ssd (xs : List Int) : ℚ :=
  (xs.map (fun x => ((x : ℚ) - qmean xs) ^ 2)).sum

/-- Unbiased (`ddof=1`) sample variance, as used inside the two-sample
t statistic. -/
def sampleVar (xs : List Int) : ℚ :=
  ssd xs / ((xs.length : ℚ) - 1)

/-- Squared t statistic of `scipy.stats.ttest_ind(tutorial_views,
career_views)` as called at line 539 — with its default `equal_var=True`,
i.e. the pooled-variance Student statistic
`t = (m1 - m2) / sqrt(sp2 * (1/n1 + 1/n2))` with
`sp2 = ((n1-1)*s1^2 + (n2-1)*s2^2) / (n1+n2-2)`.  The square avoids the
irrational root; `|t|` and the two-sided p-value are monotone in it. -/
def ttest_ind_statSq (xs ys : List Int) : ℚ :=
  let n1 : ℚ := (xs.length : ℚ)
  let n2 : ℚ := (ys.length : ℚ)
  let sp2 := ((n1 - 1) * sampleVar xs + (n2 - 1) * sampleVar ys) / (n1 + n2 - 2)
  (qmean xs - qmean ys) ^ 2 / (sp2 * (1 / n1 + 1 / n2))

/-- Modelled from the spec's words: the squared Welch t statistic (the
unequal-variance two-sample test), `t = (m1 - m2) / sqrt(s1^2/n1 + s2^2/n2)`,
squared.  Stated for comparison with `ttest_ind_statSq`. -/
def welch_statSq (xs ys : List Int) : ℚ :=
  (qmean xs - qmean ys) ^ 2
    / (sampleVar xs / (xs.length : ℚ) + sampleVar ys / (ys.length : ℚ))

/-- The pooled-variance Student statistic written independently through sums
of squared deviations: `sp2 = (ssd xs + ssd ys) / (n1 + n2 - 2)`. -/
def student_pooled_statSq (xs ys : List Int) : ℚ :=
  let n1 : ℚ := (xs.length : ℚ)
  let n2 : ℚ := (ys.length : ℚ)
  (qmean xs - qmean ys) ^ 2
    / (((ssd xs + ssd ys) / (n1 + n2 - 2)) * (1 / n1 + 1 / n2))

/- ===================== Keyword frequency ===================== -/

/-- A `\w` word character (ASCII): letter, digit or underscore. -/
def isWordChar (c : Char) : Bool := c.isAlphanum || c = '_'

/-- Tokenizer worker: splits a character list into its maximal runs of word
characters (`cur` holds the current run, reversed). -/
def tokenizeAux (cur : List Char) : List Char → List String
  | [] => if cur.isEmpty then [] else [String.mk cur.reverse]
  | c :: cs =>
    if isWordChar c then tokenizeAux (c :: cur) cs
    else if cur.isEmpty then tokenizeAux [] cs
    else String.mk cur.reverse :: tokenizeAux [] cs

/-- Models `re.findall(r'\b\w+\b', title.lower())` (line 365): the maximal
word-character runs of the lowercased title, in order. -/
def findall_words (title : String) : List String :=
  tokenizeAux [] (title.data.map Char.toLower)

/-- The stop-word set of `analyze_keyword_frequency` (lines 369-371). -/
def stop_words : List String :=
  ["a", "an", "the", "in", "on", "at", "to", "for", "of",
   "and", "or", "is", "with", "from", "|", "vs", "by", "are",
   "be", "as", "it", "this", "that", "my", "your", "i", "you"]

/-- Stable insertion step for a descending sort by an integer key: walk past
strictly larger keys only, so that an element inserted into the sorted list of
its (original-order) successors lands before every tie. -/
def insertDesc {α : Type} (key : α → Int) (x : α) : List α → List α
  | [] => [x]
  | y :: ys => if key x < key y then y :: insertDesc key x ys else x :: y :: ys

/-- Stable descending sort by an integer key (insertion sort): equal keys keep
their original relative order.  This is the tie behaviour of both
`pandas.DataFrame.nlargest` (`keep='first'`) and Python's stable
`sorted(..., reverse=True)`. -/
def sortDesc {α : Type} (key : α → Int) : List α → List α
  | [] => []
  | x :: xs => insertDesc key x (sortDesc key xs)

/-- Models `df.nlargest(n, 'views')` (line 360): the first `n` rows of the
stable descending sort by view count. -/
def nlargestViews (n : Nat) (df : List AnalysisRecord) : List AnalysisRecord :=
  (sortDesc (fun r => r.views) df).take n

/-- Occurrence counts of the words, keyed by first occurrence, in first-
occurrence order — the contents of `collections.Counter(keywords)`, whose
iteration order is insertion order. -/
def countsInOrder (ws : List String) : List (String × Nat) :=
  ws.foldl
    (fun acc w =>
      if acc.any (fun p => p.1 == w) then
        acc.map (fun p => if p.1 == w then (p.1, p.2 + 1) else p)
      else acc ++ [(w, 1)])
    []

/-- Models `Counter(keywords).most_common(n)` (line 374): the `n` highest
counts; `most_common` is documented equivalent to a stable descending sort of
the counter items by count, so ties come in first-encountered order. -/
def most_common (n : Nat) (ws : List String) : List (String × Nat) :=
  (sortDesc (fun p => (p.2 : Int)) (countsInOrder ws)).take n

/-- Source: `YouTubeAnalytics.analyze_keyword_frequency` (lines 349-383).
`threshold = int(len(self.df) * top_percentile)`: `int()` truncates toward
zero, which on the non-negative products used here is the floor.  Tokens in a
fixed stop-word set or of length at most 2 are discarded; the 15 most common
remaining tokens are returned. -/
def analyze_keyword_frequency (top_percentile : ℚ)
    (df : List AnalysisRecord) : List (String × Nat) :=
  let threshold : Nat := (⌊(df.length : ℚ) * top_percentile⌋).toNat
  let top := nlargestViews threshold df
  let keywords := (top.map (fun r => findall_words r.title)).flatten
  let filtered :=
    keywords.filter (fun w => !(stop_words.contains w) && decide (2 < w.length))
  most_common 15 filtered

/- ===================== Claimed properties as predicates ===================== -/

/-- The ratio-metric contract claimed for one record: the three derived ratios
equal their `max(views, 1)`-denominator forms, are non-negative, and at zero
views the guard leaves the numerator untouched. -/
def ratioSpec (r : RawRecord) : Prop :=
  (enrich r).likes_per_view = (r.likes : ℚ) / max (r.views : ℚ) 1
  ∧ (enrich r).comments_per_view = (r.comments : ℚ) / max (r.views : ℚ) 1
  ∧ (enrich r).engagement_rate =
      ((r.likes : ℚ) + (r.comments : ℚ)) / max (r.views : ℚ) 1
  ∧ 0 ≤ (enrich r).likes_per_view
  ∧ 0 ≤ (enrich r).comments_per_view
  ∧ 0 ≤ (enrich r).engagement_rate
  ∧ (r.views = 0 →
      (enrich r).likes_per_view = (r.likes : ℚ)
      ∧ (enrich r).comments_per_view = (r.comments : ℚ)
      ∧ (enrich r).engagement_rate = (r.likes : ℚ) + (r.comments : ℚ))

/-- The decision contract claimed for the tutorial-vs-career comparison on a
table with enough data: the test returns a result whose `hypothesis_supported`
holds exactly when the Mann-Whitney p-value is below 0.05 and the Tutorial
mean exceeds the Career mean, whose conclusion branch follows that same rule,
and whose decision fields are unchanged when the parametric test `tP` is
replaced by any other function `tAlt` (only the reported `t_pvalue` moves). -/
def h3DecisionSpec (tP tAlt uP : List Int → List Int → ℚ)
    (df : List AnalysisRecord) : Prop :=
  ∃ r : H3Result,
    test_tutorial_vs_career tP uP df = some r
    ∧ (r.hypothesis_supported = true ↔
        (r.u_pvalue < 1 / 20 ∧ r.tutorial_mean_views > r.career_mean_views))
    ∧ (r.conclusion = Conclusion.supported ↔ r.hypothesis_supported = true)
    ∧ (r.u_pvalue < 1 / 20 → r.tutorial_mean_views < r.career_mean_views →
        r.conclusion = Conclusion.reverseSignificant)
    ∧ (¬ r.u_pvalue < 1 / 20 → r.conclusion = Conclusion.noSignificantDifference)
    ∧ test_tutorial_vs_career tAlt uP df =
        some { r with
                t_pvalue := tAlt ((tutorialRows df).map (fun x => x.views))
                              ((careerRows df).map (fun x => x.views)) }

/- ===================== Concrete inputs ===================== -/

/-- A raw video lasting exactly 5 minutes (`duration_min = 5.0`). -/
def rawPT5M : RawRecord :=
  { video_id := "v5", title := "untitled clip", views := 10, likes := 1,
    comments := 0, duration := "PT5M", published := ⟨2024, 1, 15⟩ }

/-- A raw video lasting 0 seconds (`duration_min = 0`). -/
def rawPT0S : RawRecord :=
  { rawPT5M with video_id := "v0", duration := "PT0S" }

/-- A raw video with zero views. -/
def zeroViewRaw : RawRecord :=
  { video_id := "z0", title := "untitled clip", views := 0, likes := 7,
    comments := 3, duration := "PT2M", published := ⟨2024, 1, 15⟩ }

/-- A two-row raw table. -/
def rawPairW : List RawRecord :=
  [rawPT5M, zeroViewRaw]

/-- A processed table with 2 Tutorial rows and 2 Career rows. -/
def h3TableW : List AnalysisRecord :=
  process_dataframe
    [{ video_id := "t1", title := "SQL Tutorial for Beginners", views := 100,
       likes := 10, comments := 2, duration := "PT10M", published := ⟨2024, 3, 4⟩ },
     { video_id := "t2", title := "Python Tutorial Basics", views := 50,
       likes := 5, comments := 1, duration := "PT20M", published := ⟨2024, 3, 5⟩ },
     { video_id := "c1", title := "My Career Path", views := 30,
       likes := 3, comments := 1, duration := "PT8M", published := ⟨2024, 3, 6⟩ },
     { video_id := "c2", title := "Job Interview Prep", views := 20,
       likes := 2, comments := 1, duration := "PT9M", published := ⟨2024, 3, 7⟩ }]

/-- A processed table with only 1 Tutorial row and 1 Career row. -/
def h3SmallTable : List AnalysisRecord :=
  process_dataframe
    [{ video_id := "t1", title := "SQL Tutorial for Beginners", views := 100,
       likes := 10, comments := 2, duration := "PT10M", published := ⟨2024, 3, 4⟩ },
     { video_id := "c1", title := "My Career Path", views := 30,
       likes := 3, comments := 1, duration := "PT8M", published := ⟨2024, 3, 6⟩ }]

/-- A processed table whose rows were all published on a Tuesday
(2026-10-13), so six of the seven day-of-week groups are empty. -/
def tuesdayTable : List AnalysisRecord :=
  process_dataframe
    [{ video_id := "d1", title := "My Career Path", views := 40,
       likes := 4, comments := 1, duration := "PT7M", published := ⟨2026, 10, 13⟩ },
     { video_id := "d2", title := "Job Interview Prep", views := 25,
       likes := 2, comments := 1, duration := "PT6M", published := ⟨2026, 10, 13⟩ }]

/-- The spec's two-title keyword example, processed. -/
def kwTable : List AnalysisRecord :=
  process_dataframe
    [{ video_id := "k1", title := "SQL Tutorial for Beginners", views := 100,
       likes := 1, comments := 1, duration := "PT10M", published := ⟨2024, 3, 4⟩ },
     { video_id := "k2", title := "Python Tutorial Basics", views := 50,
       likes := 1, comments := 1, duration := "PT12M", published := ⟨2024, 3, 5⟩ }]

example : dayOfWeekOf ⟨2026, 10, 12⟩ = 0 := by decide
example : dayOfWeekOf ⟨2000, 1, 1⟩ = 5 := by decide
example : dayOfWeekOf ⟨2026, 10, 13⟩ = 1 := by decide
example : dayOfWeekOf ⟨2024, 2, 29⟩ = 3 := by decide
example : dayOfWeekOf ⟨1970, 1, 1⟩ = 3 := by decide
example : duration_to_seconds "PT15M30S" = 930 := by decide
example : duration_to_seconds "PT1H" = 3600 := by decide
example : duration_to_seconds "PT45S" = 45 := by decide
example : duration_to_seconds "" = 0 := by decide
example : duration_to_seconds "PT1H2M3S" = 3723 := by decide
example : categorize_video_type "SQL Tutorial for Beginners" = "Tutorial" := by decide
example : categorize_video_type "My Career Path" = "Career" := by decide
example : categorize_video_type "random words" = "Other" := by decide
example : categorize_video_type "python fun" = "Tools" := by decide
example : durationCategory 5 = some .veryShort := by decide
example : durationCategory 0 = none := by decide

/- ===================== Helper lemmas ===================== -/

/-- For a non-negative view count the replace-zero-by-one guard is exactly the
`max` with 1. -/
theorem zeroGuard_eq_max {v : Int} (hv : 0 ≤ v) :
    zeroGuard v = max (v : ℚ) 1 := by
  unfold zeroGuard
  by_cases h : v = 0
  · subst h; norm_num
  · have h1 : (1 : Int) ≤ v := by omega
    have h1q : (1 : ℚ) ≤ (v : ℚ) := by exact_mod_cast h1
    simp [h, max_eq_left h1q]

/-- The guard denominator is positive when the view count is non-negative. -/
theorem zeroGuard_pos {v : Int} (hv : 0 ≤ v) : 0 < zeroGuard v := by
  rw [zeroGuard_eq_max hv]
  exact lt_of_lt_of_le one_pos (le_max_right _ _)

/-- The classifier loop returns `none` exactly when no entry matches. -/
theorem firstMatch_eq_none_iff (t : List Char) :
    ∀ l : List (String × List String),
      firstMatch t l = none ↔ ∀ p ∈ l, catMatches p.2 t = false := by
  intro l
  induction l with
  | nil => simp [firstMatch]
  | cons a rest ih => cases h : catMatches a.2 t <;> simp [firstMatch, h, ih]

/-- The classifier loop returns `some c` exactly when some entry labelled `c`
matches and every entry before it fails to match. -/
theorem firstMatch_eq_some_iff (t : List Char) :
    ∀ (l : List (String × List String)) (c : String),
      firstMatch t l = some c ↔
        ∃ pre p suf, l = pre ++ p :: suf ∧ p.1 = c ∧ catMatches p.2 t = true ∧
          ∀ q ∈ pre, catMatches q.2 t = false := by
  intro l
  induction l with
  | nil =>
    intro c
    constructor
    · intro h; simp [firstMatch] at h
    · rintro ⟨pre, p, suf, heq, -, -, -⟩
      exact absurd heq (by cases pre <;> simp)
  | cons a rest ih =>
    intro c
    cases h : catMatches a.2 t with
    | true =>
      simp only [firstMatch, h, if_true]
      constructor
      · intro hc
        exact ⟨[], a, rest, rfl, Option.some.inj hc, h, by simp⟩
      · rintro ⟨pre, p, suf, heq, hpc, hpt, hpre⟩
        cases pre with
        | nil =>
          simp only [List.nil_append, List.cons.injEq] at heq
          obtain ⟨hap, -⟩ := heq
          exact congrArg some (by rw [hap, hpc])
        | cons b pre2 =>
          simp only [List.cons_append, List.cons.injEq] at heq
          obtain ⟨hab, -⟩ := heq
          have hbf := hpre b (List.mem_cons_self b pre2)
          rw [← hab] at hbf
          simp [hbf] at h
    | false =>
      simp only [firstMatch, h, Bool.false_eq_true, if_false]
      rw [ih c]
      constructor
      · rintro ⟨pre, p, suf, heq, hpc, hpt, hpre⟩
        refine ⟨a :: pre, p, suf, by rw [List.cons_append, heq], hpc, hpt, ?_⟩
        intro q hq
        rcases List.mem_cons.mp hq with hq | hq
        · rw [hq]; exact h
        · exact hpre q hq
      · rintro ⟨pre, p, suf, heq, hpc, hpt, hpre⟩
        cases pre with
        | nil =>
          simp only [List.nil_append, List.cons.injEq] at heq
          obtain ⟨hap, -⟩ := heq
          rw [← hap] at hpt
          simp [h] at hpt
        | cons b pre2 =>
          simp only [List.cons_append, List.cons.injEq] at heq
          obtain ⟨-, hrest⟩ := heq
          exact ⟨pre2, p, suf, hrest, hpc, hpt,
            fun q hq => hpre q (List.mem_cons_of_mem b hq)⟩

/-- Multiplying the `ddof=1` sample variance back by `n - 1` recovers the sum
of squared deviations, for samples of any length (for lengths 0 and 1 both
sides vanish). -/
theorem len_sub_one_mul_sampleVar (xs : List Int) :
    ((xs.length : ℚ) - 1) * sampleVar xs = ssd xs := by
  unfold sampleVar
  rcases xs with - | ⟨x, - | ⟨y, t⟩⟩
  · simp [ssd]
  · have h : ssd [x] = 0 := by
      simp [ssd, qmean]
    simp [h]
  · have h : ((x :: y :: t).length : ℚ) - 1 ≠ 0 := by
      simp only [List.length_cons]
      push_cast
      have h0 : (0 : ℚ) ≤ (t.length : ℚ) := Nat.cast_nonneg _
      intro hcon
      nlinarith
    rw [mul_comm, div_mul_cancel₀ _ h]

/-- On the sufficient-data path the comparison returns the structured result
payload. -/
theorem test_tvc_eq_some (tP uP : List Int → List Int → ℚ)
    (df : List AnalysisRecord)
    (h : ¬((tutorialRows df).length < 2 ∨ (careerRows df).length < 2)) :
    test_tutorial_vs_career tP uP df = some (h3Payload tP uP df) := by
  unfold test_tutorial_vs_career
  rw [if_neg h]

/-- Unfolding of the keyword analysis once its `int(len(df) * top_percentile)`
threshold is known. -/
theorem akf_threshold (tp : ℚ) (df : List AnalysisRecord) (n : Nat)
    (h : (⌊(df.length : ℚ) * tp⌋).toNat = n) :
    analyze_keyword_frequency tp df =
      most_common 15
        ((((nlargestViews n df).map (fun r => findall_words r.title)).flatten).filter
          (fun w => !(stop_words.contains w) && decide (2 < w.length))) := by
  simp only [analyze_keyword_frequency]
  rw [h]

/- ===================== Claims ===================== -/

/-- C1: evaluation of the duration bucketing at the claimed boundary inputs.
A record of exactly 5.0 minutes is bucketed into the lowest class (the label
reading `'Very Short (<5min)'`), not into `'Short (5-15min)'`, and a record of
0 minutes receives no bucket at all (`NaN`), because `pd.cut` is called with
its default right-closed bins.  This contradicts the claimed left-closed
right-open convention and the claimed totality. -/
theorem C1_boundary_bucketing :
    (enrich rawPT5M).duration_min = 5
  ∧ (enrich rawPT5M).duration_category = some DurationBucket.veryShort
  ∧ (enrich rawPT5M).duration_category ≠ some DurationBucket.short
  ∧ (enrich rawPT0S).duration_min = 0
  ∧ (enrich rawPT0S).duration_category = none := by
  have h300 : duration_to_seconds rawPT5M.duration = 300 := by decide
  have h0 : duration_to_seconds rawPT0S.duration = 0 := by decide
  have hq5 : ((duration_to_seconds rawPT5M.duration : ℚ)) / 60 = 5 := by
    rw [h300]; norm_num
  have hq0 : ((duration_to_seconds rawPT0S.duration : ℚ)) / 60 = 0 := by
    rw [h0]; norm_num
  refine ⟨hq5, ?_, ?_, hq0, ?_⟩
  · show durationCategory ((duration_to_seconds rawPT5M.duration : ℚ) / 60) = _
    rw [hq5]; decide
  · show durationCategory ((duration_to_seconds rawPT5M.duration : ℚ) / 60) ≠ _
    rw [hq5]; decide
  · show durationCategory ((duration_to_seconds rawPT0S.duration : ℚ) / 60) = _
    rw [hq0]; decide

/-- C3: the duration parser is total and non-negative, returns
`3600*hours + 60*minutes + seconds` over the components its searches find
(an absent component contributing 0), returns 0 when no component is
recognized, and matches the four claimed examples. -/
theorem C3_duration_parse_total :
    (∀ s : String,
        0 ≤ duration_to_seconds s
      ∧ duration_to_seconds s =
          3600 * (reSearchNum 'H' s).getD 0 + 60 * (reSearchNum 'M' s).getD 0
            + (reSearchNum 'S' s).getD 0
      ∧ (reSearchNum 'H' s = none ∧ reSearchNum 'M' s = none ∧
            reSearchNum 'S' s = none → duration_to_seconds s = 0))
  ∧ duration_to_seconds "PT15M30S" = 930
  ∧ duration_to_seconds "PT1H" = 3600
  ∧ duration_to_seconds "PT45S" = 45
  ∧ duration_to_seconds "" = 0 := by
  refine ⟨fun s => ⟨Nat.zero_le _, ?_, ?_⟩, by decide, by decide, by decide,
    by decide⟩
  · unfold duration_to_seconds
    rcases reSearchNum 'H' s with - | a <;> rcases reSearchNum 'M' s with - | b
      <;> rcases reSearchNum 'S' s with - | c <;> simp [Option.getD] <;> ring
  · rintro ⟨h1, h2, h3⟩
    simp [duration_to_seconds, h1, h2, h3]

/-- Witness for C3: a string with no recognizable component parses to 0. -/
theorem C3_duration_parse_total_witness : duration_to_seconds "no duration" = 0 :=
  (C3_duration_parse_total.1 "no duration").2.2 ⟨by decide, by decide, by decide⟩

/-- C5: for every record with non-negative like, comment and view counts the
three derived ratio metrics equal their `max(views, 1)` zero-guarded forms,
are non-negative, and are defined at `views = 0` with the numerator unaffected
by the guard. -/
theorem C5_ratio_metrics (r : RawRecord) (hl : 0 ≤ r.likes)
    (hc : 0 ≤ r.comments) (hv : 0 ≤ r.views) : ratioSpec r := by
  have e1 : (enrich r).likes_per_view = (r.likes : ℚ) / zeroGuard r.views := rfl
  have e2 : (enrich r).comments_per_view =
      (r.comments : ℚ) / zeroGuard r.views := rfl
  have e3 : (enrich r).engagement_rate =
      ((r.likes : ℚ) + (r.comments : ℚ)) / zeroGuard r.views := rfl
  have hg := zeroGuard_eq_max hv
  have hgnn := (zeroGuard_pos hv).le
  have hlq : (0 : ℚ) ≤ (r.likes : ℚ) := by exact_mod_cast hl
  have hcq : (0 : ℚ) ≤ (r.comments : ℚ) := by exact_mod_cast hc
  refine ⟨by rw [e1, hg], by rw [e2, hg], by rw [e3, hg],
    by rw [e1]; exact div_nonneg hlq hgnn,
    by rw [e2]; exact div_nonneg hcq hgnn,
    by rw [e3]; exact div_nonneg (add_nonneg hlq hcq) hgnn, ?_⟩
  intro h0
  have hone : zeroGuard r.views = 1 := by simp [zeroGuard, h0]
  exact ⟨by rw [e1, hone, div_one], by rw [e2, hone, div_one],
    by rw [e3, hone, div_one]⟩

/-- Witness for C5: the ratio contract at a concrete zero-view record. -/
theorem C5_ratio_metrics_witness : ratioSpec zeroViewRaw :=
  C5_ratio_metrics zeroViewRaw (by decide) (by decide) (by decide)

/-- C7: with fewer than 2 Tutorial rows or fewer than 2 Career rows the
comparison returns `None` — an outcome carrying no p-value and no conclusion —
for every choice of the two statistical test functions, i.e. without either
test being consulted. -/
theorem C7_insufficient_data_returns_none
    (tP uP : List Int → List Int → ℚ) (df : List AnalysisRecord)
    (h : (tutorialRows df).length < 2 ∨ (careerRows df).length < 2) :
    test_tutorial_vs_career tP uP df = none := by
  unfold test_tutorial_vs_career
  rw [if_pos h]

/-- Witness for C7: a table with one Tutorial row and one Career row. -/
theorem C7_insufficient_data_returns_none_witness :
    test_tutorial_vs_career (fun _ _ => (1 : ℚ) / 2) (fun _ _ => (1 : ℚ) / 2)
      h3SmallTable = none :=
  C7_insufficient_data_returns_none _ _ _ (by decide)

/-- C6 counterexample: a concrete table whose rows all fall on a Tuesday, so
the Monday group (among others) is empty.  The day-of-week procedure does not
report an insufficient-data failure: it returns the ordinary result record of
the non-significant branch (`supported = false`, a `nan` p-value that fails
the `p < 0.05` comparison), the result type having no insufficient-data
outcome at all. -/
theorem C6_counterexample :
    (dayGroups tuesdayTable).any List.isEmpty = true
  ∧ test_day_of_week (fun _ => ((0 : ℚ), (0 : ℚ))) tuesdayTable =
      { f_statistic := none, p_value := none, supported := false } := by
  refine ⟨by decide, by decide⟩

/-- C6 amended: whenever some day-of-week group is empty, the procedure
reports the plain non-significant rejection (NaN statistic and p-value,
`supported = false`), never a distinct insufficient-data outcome — though it
also never crashes, the claim's required reporting does not happen. -/
theorem C6_empty_day_group_is_plain_rejection
    (pfun : List (List Int) → ℚ × ℚ) (df : List AnalysisRecord)
    (h : (dayGroups df).any List.isEmpty = true) :
    test_day_of_week pfun df =
      { f_statistic := none, p_value := none, supported := false } := by
  simp [test_day_of_week, f_oneway_model, h]

/-- Witness for the amended C6 at the concrete all-Tuesday table. -/
theorem C6_empty_day_group_is_plain_rejection_witness :
    test_day_of_week (fun _ => ((1 : ℚ), (1 : ℚ))) tuesdayTable =
      { f_statistic := none, p_value := none, supported := false } :=
  C6_empty_day_group_is_plain_rejection _ tuesdayTable (by decide)

/-- C9 counterexample: on concrete samples the statistic computed by the
source's call `ttest_ind(tutorial_views, career_views)` (scipy's default
`equal_var=True`, pooled variance) differs from the Welch unequal-variance
statistic, so the parametric test performed is not a Welch-type test. -/
theorem C9_counterexample :
    ttest_ind_statSq [0, 12] [0, 0, 6] = 3 / 5
  ∧ welch_statSq [0, 12] [0, 0, 6] = 2 / 5
  ∧ ttest_ind_statSq [0, 12] [0, 0, 6] ≠ welch_statSq [0, 12] [0, 0, 6] := by
  have h1 : ttest_ind_statSq [0, 12] [0, 0, 6] = 3 / 5 := by
    norm_num [ttest_ind_statSq, sampleVar, ssd, qmean]
  have h2 : welch_statSq [0, 12] [0, 0, 6] = 2 / 5 := by
    norm_num [welch_statSq, sampleVar, ssd, qmean]
  refine ⟨h1, h2, ?_⟩
  rw [h1, h2]
  norm_num

/-- C9 amended: the parametric two-sample test of the comparison assumes
equal variances — for every pair of samples its statistic is the
pooled-variance Student statistic. -/
theorem C9_parametric_is_pooled_student (xs ys : List Int) :
    ttest_ind_statSq xs ys = student_pooled_statSq xs ys := by
  simp only [ttest_ind_statSq, student_pooled_statSq]
  rw [len_sub_one_mul_sampleVar, len_sub_one_mul_sampleVar]

/-- C10 counterexample: on the spec's two-title table the default top
fraction gives `threshold = int(2 * 0.1) = 0`, so the top-video selection is
empty and the top-keyword output is empty — `("tutorial", 2)` does not appear
in it. -/
theorem C10_counterexample :
    analyze_keyword_frequency (1 / 10) kwTable = []
  ∧ ("tutorial", 2) ∉ analyze_keyword_frequency (1 / 10) kwTable := by
  have hlen : kwTable.length = 2 := by decide
  have hn : (⌊(kwTable.length : ℚ) * (1 / 10)⌋).toNat = 0 := by
    rw [hlen]; norm_num
  rw [akf_threshold (1 / 10) kwTable 0 hn]
  refine ⟨by decide, by decide⟩

/-- C10 amended: on the two-title table the token `"tutorial"` appears with
count 2 only once the selected fraction covers both records (fraction 1); with
the default fraction of one-tenth the output is empty. -/
theorem C10_keyword_full_fraction :
    analyze_keyword_frequency (1 / 10) kwTable = ([] : List (String × Nat))
  ∧ ("tutorial", 2) ∈ analyze_keyword_frequency 1 kwTable
  ∧ analyze_keyword_frequency 1 kwTable =
      [("tutorial", 2), ("sql", 1), ("beginners", 1), ("python", 1),
       ("basics", 1)] := by
  have hlen : kwTable.length = 2 := by decide
  have hn0 : (⌊(kwTable.length : ℚ) * (1 / 10)⌋).toNat = 0 := by
    rw [hlen]; norm_num
  have hn2 : (⌊(kwTable.length : ℚ) * 1⌋).toNat = 2 := by
    rw [hlen]
    have h2 : ⌊((2 : ℕ) : ℚ) * 1⌋ = 2 := by norm_num
    rw [h2]
    rfl
  rw [akf_threshold (1 / 10) kwTable 0 hn0, akf_threshold 1 kwTable 2 hn2]
  refine ⟨by decide, by decide, by decide⟩

/-- C2: on every table with at least 2 Tutorial and 2 Career rows the
comparison returns a result whose significance decision is driven by the
Mann-Whitney p-value alone: supported iff that p-value is below 0.05 and the
Tutorial mean exceeds the Career mean; below 0.05 with a lower Tutorial mean
gives the reverse conclusion; not below 0.05 gives no significant difference;
and replacing the parametric t-test by any other function changes only the
reported `t_pvalue`, never the decision. -/
theorem C2_nonparametric_drives_decision
    (tP tAlt uP : List Int → List Int → ℚ) (df : List AnalysisRecord)
    (h1 : 2 ≤ (tutorialRows df).length) (h2 : 2 ≤ (careerRows df).length) :
    h3DecisionSpec tP tAlt uP df := by
  have hcond : ¬((tutorialRows df).length < 2 ∨ (careerRows df).length < 2) := by
    omega
  refine ⟨h3Payload tP uP df, test_tvc_eq_some tP uP df hcond, ?_, ?_, ?_, ?_, ?_⟩
  · simp only [h3Payload]
    exact decide_eq_true_iff
  · simp only [h3Payload]
    split_ifs with hu hm
    · exact iff_of_true rfl (decide_eq_true ⟨hu, hm⟩)
    · exact iff_of_false (by decide) (fun hco => hm (of_decide_eq_true hco).2)
    · exact iff_of_false (by decide) (fun hco => hu (of_decide_eq_true hco).1)
  · intro hu hlt
    simp only [h3Payload] at hu hlt ⊢
    rw [if_pos hu, if_neg (lt_asymm hlt)]
  · intro hu
    simp only [h3Payload] at hu ⊢
    rw [if_neg hu]
  · rw [test_tvc_eq_some tAlt uP df hcond]
    rfl

/-- Witness for C2 at a concrete table with 2 Tutorial and 2 Career rows. -/
theorem C2_nonparametric_drives_decision_witness :
    h3DecisionSpec (fun _ _ => (1 : ℚ) / 2) (fun _ _ => (1 : ℚ) / 4)
      (fun _ _ => (1 : ℚ) / 100) h3TableW :=
  C2_nonparametric_drives_decision _ _ _ h3TableW (by decide) (by decide)

/-- C4: the classifier is total and deterministic with first-match priority:
for every title, the assigned label `c` is either the label of some entry of
the ordered category list whose keywords match the lowercased title while
every earlier entry fails to match, or `"Other"` when no entry matches — and
exactly under those conditions. -/
theorem C4_classifier_first_match (title : String) (c : String) :
    categorize_video_type title = c ↔
      ((∃ pre p suf, categories = pre ++ p :: suf ∧ p.1 = c ∧
          catMatches p.2 (lowerTitle title) = true ∧
          ∀ q ∈ pre, catMatches q.2 (lowerTitle title) = false)
       ∨ (c = "Other" ∧
          ∀ p ∈ categories, catMatches p.2 (lowerTitle title) = false)) := by
  unfold categorize_video_type
  cases hfm : firstMatch (lowerTitle title) categories with
  | none =>
    simp only [Option.getD_none]
    constructor
    · intro hc
      exact Or.inr ⟨hc.symm, (firstMatch_eq_none_iff _ _).mp hfm⟩
    · rintro (⟨pre, p, suf, heq, hpc, hpt, hpre⟩ | ⟨hc, -⟩)
      · have hs := (firstMatch_eq_some_iff _ _ c).mpr ⟨pre, p, suf, heq, hpc, hpt, hpre⟩
        rw [hfm] at hs
        exact absurd hs (by simp)
      · exact hc.symm
  | some a =>
    simp only [Option.getD_some]
    constructor
    · intro hc
      exact Or.inl ((firstMatch_eq_some_iff _ _ c).mp (hc ▸ hfm))
    · rintro (hex | ⟨hc, hall⟩)
      · have hs := (firstMatch_eq_some_iff _ _ c).mpr hex
        rw [hfm] at hs
        exact Option.some.inj hs
      · have hn := (firstMatch_eq_none_iff _ _).mpr hall
        rw [hfm] at hn
        exact absurd hn (by simp)

/-- Witness for C4: a title containing both a Tutorial keyword and a Career
keyword is classified by the earlier category, Tutorial. -/
theorem C4_classifier_first_match_witness :
    categorize_video_type "Data Tutorial for your Career" = "Tutorial" :=
  (C4_classifier_first_match "Data Tutorial for your Career" "Tutorial").mpr
    (Or.inl ⟨[], ("Tutorial", tutorial_keywords), categories.tail, rfl, rfl,
      by decide, by simp⟩)

/-- C8: feature derivation is row-count-preserving and order-preserving — one
output record per input record, the i-th output derived from the i-th input —
including on the empty table; being a pure function of its input list, it
leaves that list unmodified. -/
theorem C8_row_preserving (rs : List RawRecord) :
    (process_dataframe rs).length = rs.length
  ∧ (∀ (i : Nat) (hi : i < rs.length) (ho : i < (process_dataframe rs).length),
      (process_dataframe rs).get ⟨i, ho⟩ = enrich (rs.get ⟨i, hi⟩))
  ∧ process_dataframe ([] : List RawRecord) = [] := by
  refine ⟨List.length_map _ _, fun i hi ho => ?_, rfl⟩
  simp [process_dataframe]

/-- Witness for C8 on a concrete two-row table. -/
theorem C8_row_preserving_witness :
    (process_dataframe rawPairW).length = rawPairW.length
  ∧ (process_dataframe rawPairW).get ⟨0, by decide⟩
      = enrich (rawPairW.get ⟨0, by decide⟩) :=
  ⟨(C8_row_preserving rawPairW).1,
   (C8_row_preserving rawPairW).2.1 0 (by decide) (by decide)⟩
